import Mathlib

/-!
Shallow embedding of `pouty/console.py` (the console message renderer and its
stateful output pipeline) together with theorems checking the specification's
claims about it.

Modelling conventions:
* The platform is fixed to POSIX (`WINDOWS = False`, `os.path.sep = '/'`), so
  color formatting wraps text in ANSI escapes and is never the identity.
* Python strings are Lean `String`s; slicing/indexing is by code point, which
  matches `List Char` operations on `String.data`.
* The process-wide class attributes of `ConsolePrinter` (`_outputfile`, `_fd`,
  `_timestamp`, `_hanging`) form `ClassState`.  The module globals `QUIET_MODE`
  and `DEBUG_MODE` are passed explicitly to each operation (they are read per
  call in the source and may change between calls).
* The open log file's handle is modelled by the flag `fdOpen`; the data written
  to streams and to the file is returned as lists of write events rather than
  kept in the state.
* `time.strftime`/`time.time` are modelled by passing the current time as an
  explicit `PyTime` value; the external helper `roto.paths.tilde` is passed as
  an explicit function argument `td`.
-/

namespace Pouty

/-- Python exceptions raised by the modelled code: `ValueError` (explicit
`raise` in `__call__`) and `NameError` (evaluation of an undefined name, which
happens in `openfile` where `sys.stderr` is referenced although the module
only does `from sys import stdout, stderr, platform`). -/
inductive PyErr where
  | valueError (msg : String)
  | nameError (nm : String)
deriving DecidableEq, Repr

/-- Console output streams (`sys.stdout` / `sys.stderr`). -/
inductive Sink where
  | out
  | err
deriving DecidableEq, Repr

/-- One write to a console stream: the exact characters written (escape codes
and the trailing newline of a `print` call included). -/
structure CWrite where
  strm : Sink
  text : String
deriving DecidableEq, Repr

/-- One call to the external notification collaborator:
`Notifier.notify(body, title, subtitle)`. -/
structure NotifyCall where
  body : String
  title : String
  subtitle : Option String
deriving DecidableEq, Repr

/-- The color names of `COL_FUNC` (synonym keys map to the same codes as the
functions they alias in the source). -/
inductive ColorName where
  | snow | white | lightgray | smoke | dimgray | gray | cadetblue | seafoam
  | cyan | blue | purple | pink | red | orange | yellow | ochre | green
  | lightred | lightgreen | brown | lightblue | lightcyan | default
deriving DecidableEq, Repr

/-- The ANSI code string each color function passes to `_color_format`. -/
def colorCode : ColorName → String
  | .snow => "1;37"
  | .white => "0;37"
  | .lightgray => "1;36"
  | .smoke => "1;36"
  | .dimgray => "1;33"
  | .gray => "1;30"
  | .cadetblue => "1;34"
  | .seafoam => "1;32"
  | .cyan => "0;36"
  | .blue => "0;34"
  | .purple => "1;35"
  | .pink => "0;35"
  | .red => "0;31"
  | .orange => "1;31"
  | .yellow => "0;33"
  | .ochre => "0;33"
  | .green => "0;32"
  | .lightred => "1;31"
  | .lightgreen => "1;32"
  | .brown => "0;33"
  | .lightblue => "1;34"
  | .lightcyan => "1;36"
  | .default => ""

/-- `_color_format(code, text)`: wrap `text` in an ANSI escape prefix built
from `code` and the fixed reset suffix. -/
def colorFormat (code text : String) : String :=
  "\x1b[" ++ code ++ "m" ++ text ++ "\x1b[0m"

/-- Apply the color function named `c` (POSIX platform, so never the
identity). -/
def colorFn (c : ColorName) (s : String) : String :=
  colorFormat (colorCode c) s

/-- `re.sub('(\x1b\[\d;\d\dm)|(\x1b\[0m)', '', s)` on the character list:
scan left to right, deleting each leftmost non-overlapping match; when no
match starts at the current position, keep one character and continue.  The
two regex alternatives can never both match at one position (the fourth
character is `;` for the first and `m` for the second), so trying the
four-character reset form first is equivalent to the regex's alternative
order. -/
def stripColorsFuel : Nat → List Char → List Char
  | 0, l => l
  | _ + 1, [] => []
  | f + 1, '\x1b' :: cs =>
    match cs with
    | '[' :: '0' :: 'm' :: rest => stripColorsFuel f rest
    | '[' :: c1 :: ';' :: c2 :: c3 :: 'm' :: rest =>
      if c1.isDigit && c2.isDigit && c3.isDigit then stripColorsFuel f rest
      else '\x1b' :: stripColorsFuel f cs
    | _ => '\x1b' :: stripColorsFuel f cs
  | f + 1, c :: cs => c :: stripColorsFuel f cs

/-- The scan with enough fuel to finish: every step consumes at least one
character, so `l.length` steps always suffice and the fuel-exhausted branch
is never taken. -/
def stripColorsL (l : List Char) : List Char :=
  stripColorsFuel l.length l

/-- Escape-code stripping on strings, as used before every log-file write. -/
def stripColors (s : String) : String :=
  String.mk (stripColorsL s.data)

/-- `str.split('\n')` (the source splits messages with `msg.split('\n')`):
always returns at least one (possibly empty) piece. -/
def splitLinesL : List Char → List (List Char)
  | [] => [[]]
  | c :: cs =>
    if c = '\n' then [] :: splitLinesL cs
    else
      match splitLinesL cs with
      | [] => [[c]]
      | l :: ls => (c :: l) :: ls

/-- `str.split('\n')` on strings. -/
def splitLines (s : String) : List String :=
  (splitLinesL s.data).map String.mk

/-- `s.endswith('\n')`. -/
def endsWithNl (s : String) : Bool :=
  s.data.getLast? = some '\n'

/-- `str.strip()` with no argument (ASCII whitespace; the unicode whitespace
Python also strips is not exercised here). -/
def pyStrip (s : String) : String :=
  String.mk (((s.data.dropWhile Char.isWhitespace).reverse.dropWhile
    Char.isWhitespace).reverse)

/-- The Python slice `s[n:]` (by code points). -/
def pyDrop (s : String) (n : Nat) : String :=
  String.mk (s.data.drop n)

/-- `s.startswith(p)` (used only in theorem statements, to talk about leading
severity tags). -/
def startsWithStr (s p : String) : Bool :=
  s.data.take p.data.length == p.data

/-- `' ' * n`. -/
def spaces (n : Nat) : String :=
  String.mk (List.replicate n ' ')

/-- `template.format(*args)` restricted to the fragment the source exercises:
each empty replacement field is substituted with the next positional
argument; all other characters are copied verbatim.  (Named fields, format
specs and the IndexError on missing arguments are outside the fragment the
claims use.) -/
def pyFormatL : List Char → List String → List Char
  | [], _ => []
  | '\x7b' :: '\x7d' :: cs, a :: as => a.data ++ pyFormatL cs as
  | c :: cs, as => c :: pyFormatL cs as

/-- `template.format(*args)` on strings. -/
def pyFormat (s : String) (args : List String) : String :=
  String.mk (pyFormatL s.data args)

/-- `str(time.time()).split('.')[-1]`: the characters after the last `.`
(the whole string when there is no dot). -/
def afterLastDot (l : List Char) : List Char :=
  l.foldl (fun acc c => if c = '.' then [] else acc ++ [c]) []

/-- `str(time.time()).split('.')[-1][:6].ljust(6, '0')`: the sub-second text
used by `ConsolePrinter.timestamp`, truncated/zero-padded to 6 characters. -/
def fracSix (timeStr : String) : String :=
  let t6 := (afterLastDot timeStr.data).take 6
  String.mk (t6 ++ List.replicate (6 - t6.length) '0')

/-- Two-digit zero-padded decimal, as `strftime` renders `%m %d %H %M %S`
(faithful for values below 100, which the fields always are). -/
def pad2 (n : Nat) : String :=
  String.mk [Nat.digitChar (n / 10 % 10), Nat.digitChar (n % 10)]

/-- Four-digit decimal as `strftime` renders `%Y` (faithful for years
1000-9999). -/
def pad4 (n : Nat) : String :=
  String.mk [Nat.digitChar (n / 1000 % 10), Nat.digitChar (n / 100 % 10),
    Nat.digitChar (n / 10 % 10), Nat.digitChar (n % 10)]

/-- The current wall-clock time as the modelled code observes it: the broken
down fields read through `time.strftime` and the string `str(time.time())`
whose fractional part feeds the sub-second digits. -/
structure PyTime where
  year : Nat
  month : Nat
  day : Nat
  hour : Nat
  minute : Nat
  sec : Nat
  timeStr : String
deriving DecidableEq, Repr

/-- `ConsolePrinter.timestamp()`: note the format string `_tfmt` itself
begins with `[` and ends with `]`, so the returned string is already
bracketed. -/
def timestampStr (t : PyTime) : String :=
  "[" ++ pad4 t.year ++ "-" ++ pad2 t.month ++ "-" ++ pad2 t.day ++ "+" ++
    pad2 t.hour ++ ":" ++ pad2 t.minute ++ "+" ++ pad2 t.sec ++ "." ++
    fracSix t.timeStr ++ "]"

/-- The process-wide class attributes of `ConsolePrinter`: the log-file path
`_outputfile`, whether `_fd` is an open handle (`_isopen()`), the
`_timestamp` flag, and the `_hanging` flag. -/
structure ClassState where
  outputfile : Option String
  fdOpen : Bool
  tsOn : Bool
  hanging : Bool
deriving DecidableEq, Repr

/-- Per-instance state of a `ConsolePrinter`: default prefix string, the two
color names resolved by `set_prefix_color` / `set_message_color`, and whether
`_notifier` has been constructed (it starts out `None`). -/
structure Printer where
  prefixText : String
  prefColor : ColorName
  msgColor : ColorName
  notifierMade : Bool
deriving DecidableEq, Repr

/-- `ConsolePrinter.__init__(prefix, prefix_color, message_color)` on POSIX:
absent colors fall back to `DEFAULT_PREFIX_COLOR = 'cyan'` and
`DEFAULT_MSG_COLOR = 'default'`; `_notifier` starts unset. -/
def mkPrinter (pfxStr : String) (pc mc : Option ColorName) : Printer :=
  ⟨pfxStr, pc.getD ColorName.cyan, mc.getD ColorName.default, false⟩

/-- The keyword options of `ConsolePrinter.__call__`: `hidePfx` models the
`hideprefix` flag, `prefixOv`/`quietOv` the popped `prefix`/`quiet` keyword
overrides. -/
structure EmitOpts where
  hidePfx : Bool := false
  popup : Bool := false
  debug : Bool := false
  error : Bool := false
  warning : Bool := false
  prefixOv : Option String := none
  quietOv : Option Bool := none
deriving DecidableEq, Repr

/-- Everything one `__call__` does: the exception it raises (if any), the
updated instance and class state, the console writes, the log-file writes
(one entry per `fd.write` call, in order), and the notification calls.
`constructed` records whether this call built the lazy `Notifier`. -/
structure EmitRes where
  exn : Option PyErr
  printer : Printer
  cstate : ClassState
  console : List CWrite
  fileOut : List String
  notes : List NotifyCall
  constructed : Bool
deriving DecidableEq, Repr

/-- `ConsolePrinter.printf(s, color)` (POSIX): a no-op under the global quiet
mode; otherwise print `colf(s)` to stdout with no trailing newline, mirror
the color-stripped raw string to the log file when one is open, and set the
shared hanging flag to whether `s` does not end in a newline.  Returns the
updated class state, the console writes and the file writes. -/
def printf (qm : Bool) (pr : Printer) (st : ClassState) (s : String)
    (c : Option ColorName) : ClassState × List CWrite × List String :=
  if qm then (st, [], [])
  else
    let colf := colorFn (c.getD pr.prefColor)
    let fw := if st.fdOpen then [stripColors s] else []
    ({ st with hanging := !(endsWithNl s) }, [⟨Sink.out, colf s⟩], fw)

/-- `ConsolePrinter.newline()`: `self.printf('\n')`. -/
def newline (qm : Bool) (pr : Printer) (st : ClassState) :
    ClassState × List CWrite × List String :=
  printf qm pr st "\n" none

/-- The quick-exit condition of `__call__` (lines 199-204): not a warning or
error, and the per-call quiet override (default: global quiet mode) is set,
or this is a debug message while the global debug mode is off. -/
def gated (qm dm : Bool) (o : EmitOpts) : Bool :=
  !(o.warning || o.error) && ((o.quietOv.getD qm) || (o.debug && !dm))

/-- Prefix text resolution of `__call__` (lines 200 and 207-212): the popped
`prefix` keyword (default: the instance prefix), stripped, then overridden by
the canonical severity names in the source's order. -/
def resolvePrefixText (pr : Printer) (o : EmitOpts) : String :=
  let p := pyStrip (o.prefixOv.getD pr.prefixText)
  let p := if o.debug then "Debug" else p
  let p := if o.warning then "Warning" else p
  if o.error then "Error" else p

/-- Display prefix construction (lines 213-216): `prefix + ': '` when the
prefix is non-empty, else the empty string. -/
def preString (pfx : String) : String :=
  if pfx = "" then "" else pfx ++ ": "

/-- Stream and color dispatch on the severity flags (lines 233-248). -/
structure RenderCfg where
  strm : Sink
  prefColor : ColorName
  msgColor : ColorName
deriving DecidableEq, Repr

/-- Severity dispatch (lines 233-248): error and warning go to stderr in
red/orange, debug goes to stdout in dimgray/smoke, otherwise the instance's
configured colors to stdout. -/
def renderCfg (pr : Printer) (o : EmitOpts) : RenderCfg :=
  if o.error then ⟨Sink.err, ColorName.red, ColorName.red⟩
  else if o.warning then ⟨Sink.err, ColorName.orange, ColorName.orange⟩
  else if o.debug then ⟨Sink.out, ColorName.dimgray, ColorName.smoke⟩
  else ⟨Sink.out, pr.prefColor, pr.msgColor⟩

/-- Message text construction (lines 224-230): a single argument is used
verbatim (`str` of a string is the string), otherwise the first argument is
a template formatted with the rest; then, when the text contains the path
separator `/`, the external `tilde` helper `td` is applied. -/
def renderText (td : String → String) (m0 : String) (rest : List String) :
    String :=
  let m := match rest with
    | [] => m0
    | _ => pyFormat m0 rest
  if m.data.contains '/' then td m else m

/-- Hanging-line resolution (lines 250-252): when the shared hanging flag is
set, `self.newline()` runs first. -/
def hangRes (qm : Bool) (pr : Printer) (st : ClassState) :
    ClassState × List CWrite × List String :=
  if st.hanging then newline qm pr st else (st, [], [])

/-- The console writes of lines 255-258: the colored prefix plus first line,
then every remaining line indented with `preLen` spaces. -/
def renderWrites (strm : Sink) (pc mc : ColorName) (pre : String)
    (preLen : Nat) (lines : List String) : List CWrite :=
  match lines with
  | [] => []
  | l0 :: ls =>
    ⟨strm, colorFn pc pre ++ colorFn mc l0 ++ "\n"⟩ ::
      ls.map (fun l => ⟨strm, spaces preLen ++ colorFn mc l ++ "\n"⟩)

/-- The log-file writes of lines 260-275, in the order the `fd.write` calls
happen: nothing at all for debug messages or when no file is open; otherwise
the optional timestamp tag, then the severity tag (or the display prefix when
an explicit distinct prefix is shown), then the color-stripped message with a
trailing newline. -/
def mirrorWrites (t : PyTime) (pr : Printer) (st1 : ClassState) (o : EmitOpts)
    (pfx pre m : String) : List String :=
  if st1.fdOpen && !o.debug then
    (if st1.tsOn then ["[ " ++ timestampStr t ++ " ]  "] else []) ++
    (if o.error then ["ERROR -> "]
     else if o.warning then ["WARNING -> "]
     else if pfx ≠ "" ∧ pfx ≠ pr.prefixText ∧ o.hidePfx = false then [pre]
     else []) ++
    [stripColors m ++ "\n"]
  else []

/-- Line 272 reassigns `msg` to its color-stripped form, but only when the
file-mirror block ran; the popup block then sees the reassigned value. -/
def msgAfterMirror (st1 : ClassState) (o : EmitOpts) (m : String) : String :=
  if st1.fdOpen && !o.debug then stripColors m else m

/-- The notification calls of lines 278-286: error and warning popups forward
`msg[7:]` / `msg[9:]` (a fixed character count, the length of `'Error: '` /
`'Warning: '`), other popups forward `msg` unchanged. -/
def popupNotes (o : EmitOpts) (m2 : String) : List NotifyCall :=
  if o.popup then
    if o.error then [⟨pyDrop m2 7, "Console", some "Error"⟩]
    else if o.warning then [⟨pyDrop m2 9, "Console", some "Warning"⟩]
    else [⟨m2, "Console", none⟩]
  else []

/-- The result of a call that returns before doing anything (the quiet/debug
quick exit). -/
def noEffect (pr : Printer) (st : ClassState) : EmitRes :=
  ⟨none, pr, st, [], [], [], false⟩

/-- The body of `__call__` after the quick exit and the `ValueError` check,
for message arguments `m0 :: rest` (lines 207-286), composed of the stage
helpers above in the source's order. -/
def emitBody (qm : Bool) (td : String → String) (t : PyTime) (pr : Printer)
    (st : ClassState) (m0 : String) (rest : List String) (o : EmitOpts) :
    EmitRes :=
  let pfx := resolvePrefixText pr o
  let pre0 := preString pfx
  let preLen := pre0.length
  let pre := if o.hidePfx then spaces preLen else pre0
  let m := renderText td m0 rest
  let cfg := renderCfg pr o
  let h := hangRes qm pr st
  let st1 := h.1
  let cons := h.2.1 ++ renderWrites cfg.strm cfg.prefColor cfg.msgColor pre
    preLen (splitLines m)
  let fout := h.2.2 ++ mirrorWrites t pr st1 o pfx pre m
  let m2 := msgAfterMirror st1 o m
  let made := o.popup && !pr.notifierMade
  ⟨none, if made then { pr with notifierMade := true } else pr, st1, cons,
    fout, popupNotes o m2, made⟩

/-- `ConsolePrinter.__call__` under globals `qm` (`QUIET_MODE`) and `dm`
(`DEBUG_MODE`), external tilde helper `td`, current time `t`, for message
arguments `msgs` and options `o`: first the quiet/debug quick exit, then the
`ValueError` on an empty argument list, then the rendering body. -/
def emit (qm dm : Bool) (td : String → String) (t : PyTime) (pr : Printer)
    (st : ClassState) (msgs : List String) (o : EmitOpts) : EmitRes :=
  if gated qm dm o then noEffect pr st
  else
    match msgs with
    | [] =>
      { noEffect pr st with
        exn := some (PyErr.valueError "message argument is required") }
    | m0 :: rest => emitBody qm td t pr st m0 rest o

/-- Result of `ConsolePrinter.openfile`: the exception that escapes the call
(if any) and the updated class state.  Nothing is ever written to the error
stream by this method: both of its `print(..., file=sys.stderr)` statements
evaluate the undefined name `sys` and raise `NameError` instead. -/
structure OpenRes where
  exn : Option PyErr
  cstate : ClassState
deriving DecidableEq, Repr

/-- `ConsolePrinter.openfile(newfile)`: `openOk` is whether the operating
system's `open` succeeds (its failure is the `IOError` branch).  With no path
set, the attempted report references `sys` and raises `NameError`.  With the
file already open the call is a no-op.  On `IOError` the path and handle are
cleared first, and then the attempted report again raises `NameError`.
The `newfile` flag only selects the mode string (`'w'` / `'a'`), which
affects file contents (not modelled beyond write events), not control flow. -/
def openfile (openOk newfile : Bool) (st : ClassState) : OpenRes :=
  match st.outputfile with
  | none => ⟨some (PyErr.nameError "sys"), st⟩
  | some _ =>
    if st.fdOpen then ⟨none, st⟩
    else if openOk then ⟨none, { st with fdOpen := true }⟩
    else ⟨some (PyErr.nameError "sys"),
      { st with outputfile := none, fdOpen := false }⟩

/-! Concrete fixtures used by witnesses and counterexamples. -/

/-- The module-level `Logger = ConsolePrinter()`: empty prefix, default
colors. -/
def pr0 : Printer := mkPrinter "" none none

/-- A printer with the instance prefix `"Run"`. -/
def prRun : Printer := mkPrinter "Run" none none

/-- Class state with no output file and nothing hanging. -/
def st0 : ClassState := ⟨none, false, false, false⟩

/-- Class state with an open log file, timestamps off. -/
def stOpen : ClassState := ⟨some "out.log", true, false, false⟩

/-- Class state with an open log file and timestamps on. -/
def stTs : ClassState := ⟨some "out.log", true, true, false⟩

/-- A fixed observation time: 2026-10-12 08:30:15, `time.time()` rendering
as `"1760257815.123456"`. -/
def t0 : PyTime := ⟨2026, 10, 12, 8, 30, 15, "1760257815.123456"⟩

/-! Helper lemmas shared by the claim theorems below. -/

/-- `String.mk` is length-preserving. -/
theorem length_mk (l : List Char) : (String.mk l).length = l.length := rfl

/-- Appending `String.mk`s concatenates the character lists. -/
theorem strMk_append (a b : List Char) :
    String.mk a ++ String.mk b = String.mk (a ++ b) := rfl

/-- The one-character string `"\n"` ends in a newline. -/
theorem endsWithNl_nl : endsWithNl "\n" = true := rfl

/-- `str.split('\n')` never yields an empty list of pieces. -/
theorem splitLinesL_ne_nil (l : List Char) : splitLinesL l ≠ [] := by
  induction l with
  | nil => simp [splitLinesL]
  | cons c cs ih =>
    unfold splitLinesL
    split
    · simp
    · split <;> simp

/-- `splitLines` never yields an empty list of lines. -/
theorem splitLines_ne_nil (s : String) : splitLines s ≠ [] := by
  unfold splitLines
  simp [splitLinesL_ne_nil]

/-- The sub-second text of the timestamp always has exactly 6 characters. -/
theorem fracSix_length (s : String) : (fracSix s).length = 6 := by
  unfold fracSix
  have h : ((afterLastDot s.data).take 6).length ≤ 6 := by
    simp [List.length_take]
  simp only [length_mk, List.length_append, List.length_replicate]
  omega

/-- The class state coming out of hanging-line resolution keeps the file
handle (only the hanging flag can change). -/
theorem hangRes_fst_fdOpen (qm : Bool) (pr : Printer) (st : ClassState) :
    ((hangRes qm pr st).1).fdOpen = st.fdOpen := by
  by_cases h : st.hanging <;> by_cases hq : qm <;>
    simp [hangRes, newline, printf, h, hq]

/-- Hanging-line resolution keeps the timestamp flag. -/
theorem hangRes_fst_tsOn (qm : Bool) (pr : Printer) (st : ClassState) :
    ((hangRes qm pr st).1).tsOn = st.tsOn := by
  by_cases h : st.hanging <;> by_cases hq : qm <;>
    simp [hangRes, newline, printf, h, hq]

/-- Projection lemmas for `emitBody` (it is a structure literal under
`let`s, so these are definitional). -/
theorem emitBody_exn (qm : Bool) (td : String → String) (t : PyTime)
    (pr : Printer) (st : ClassState) (m0 : String) (rest : List String)
    (o : EmitOpts) : (emitBody qm td t pr st m0 rest o).exn = none := rfl

/-- `emitBody` updates the class state exactly as hanging-line resolution
does. -/
theorem emitBody_cstate (qm : Bool) (td : String → String) (t : PyTime)
    (pr : Printer) (st : ClassState) (m0 : String) (rest : List String)
    (o : EmitOpts) :
    (emitBody qm td t pr st m0 rest o).cstate = (hangRes qm pr st).1 := rfl

/-- The console writes of `emitBody`: the hanging-resolution writes followed
by the rendered message block. -/
theorem emitBody_console (qm : Bool) (td : String → String) (t : PyTime)
    (pr : Printer) (st : ClassState) (m0 : String) (rest : List String)
    (o : EmitOpts) :
    (emitBody qm td t pr st m0 rest o).console =
      (hangRes qm pr st).2.1 ++
        renderWrites (renderCfg pr o).strm (renderCfg pr o).prefColor
          (renderCfg pr o).msgColor
          (if o.hidePfx then
            spaces (preString (resolvePrefixText pr o)).length
           else preString (resolvePrefixText pr o))
          (preString (resolvePrefixText pr o)).length
          (splitLines (renderText td m0 rest)) := rfl

/-- The log-file writes of `emitBody`. -/
theorem emitBody_fileOut (qm : Bool) (td : String → String) (t : PyTime)
    (pr : Printer) (st : ClassState) (m0 : String) (rest : List String)
    (o : EmitOpts) :
    (emitBody qm td t pr st m0 rest o).fileOut =
      (hangRes qm pr st).2.2 ++
        mirrorWrites t pr (hangRes qm pr st).1 o (resolvePrefixText pr o)
          (if o.hidePfx then
            spaces (preString (resolvePrefixText pr o)).length
           else preString (resolvePrefixText pr o))
          (renderText td m0 rest) := rfl

/-- The notification calls of `emitBody`. -/
theorem emitBody_notes (qm : Bool) (td : String → String) (t : PyTime)
    (pr : Printer) (st : ClassState) (m0 : String) (rest : List String)
    (o : EmitOpts) :
    (emitBody qm td t pr st m0 rest o).notes =
      popupNotes o (msgAfterMirror (hangRes qm pr st).1 o
        (renderText td m0 rest)) := rfl

/-- Whether `emitBody` constructs the lazy notifier. -/
theorem emitBody_constructed (qm : Bool) (td : String → String) (t : PyTime)
    (pr : Printer) (st : ClassState) (m0 : String) (rest : List String)
    (o : EmitOpts) :
    (emitBody qm td t pr st m0 rest o).constructed =
      (o.popup && !pr.notifierMade) := rfl

/-- The printer coming out of `emitBody`. -/
theorem emitBody_printer (qm : Bool) (td : String → String) (t : PyTime)
    (pr : Printer) (st : ClassState) (m0 : String) (rest : List String)
    (o : EmitOpts) :
    (emitBody qm td t pr st m0 rest o).printer =
      (if o.popup && !pr.notifierMade then { pr with notifierMade := true }
       else pr) := rfl

/-- `emit` on a gated call is the quick exit. -/
theorem emit_gated (qm dm : Bool) (td : String → String) (t : PyTime)
    (pr : Printer) (st : ClassState) (msgs : List String) (o : EmitOpts)
    (hg : gated qm dm o = true) :
    emit qm dm td t pr st msgs o = noEffect pr st := by
  simp [emit, hg]

/-- `emit` on an ungated call with a nonempty argument list runs the body. -/
theorem emit_cons (qm dm : Bool) (td : String → String) (t : PyTime)
    (pr : Printer) (st : ClassState) (m0 : String) (rest : List String)
    (o : EmitOpts) (hg : gated qm dm o = false) :
    emit qm dm td t pr st (m0 :: rest) o = emitBody qm td t pr st m0 rest o :=
  by simp [emit, hg]

/-- `emit` on an ungated call with no message arguments raises
`ValueError` before any output or state change. -/
theorem emit_nil (qm dm : Bool) (td : String → String) (t : PyTime)
    (pr : Printer) (st : ClassState) (o : EmitOpts)
    (hg : gated qm dm o = false) :
    emit qm dm td t pr st [] o =
      { noEffect pr st with
        exn := some (PyErr.valueError "message argument is required") } := by
  simp [emit, hg]

/-- Once the notifier exists, no later `emit` on that printer constructs a
new one, and the notifier keeps existing. -/
theorem emit_made_mono (qm dm : Bool) (td : String → String) (t : PyTime)
    (pr : Printer) (st : ClassState) (msgs : List String) (o : EmitOpts)
    (h : pr.notifierMade = true) :
    (emit qm dm td t pr st msgs o).constructed = false ∧
    (emit qm dm td t pr st msgs o).printer.notifierMade = true := by
  unfold emit
  split
  · simp [noEffect, h]
  · cases msgs with
    | nil => simp [noEffect, h]
    | cons m0 rest => simp [emitBody_constructed, emitBody_printer, h]

/-- The continuation-line writes of the rendered block: every line after the
first, indented with `preLen` spaces. -/
theorem renderWrites_tail (strm : Sink) (pc mc : ColorName) (pre : String)
    (preLen : Nat) (lines : List String) :
    (renderWrites strm pc mc pre preLen lines).tail =
      lines.tail.map
        (fun l => ⟨strm, spaces preLen ++ colorFn mc l ++ "\n"⟩) := by
  cases lines <;> rfl

/-- The rendered block is never empty for a nonempty line list. -/
theorem renderWrites_ne_nil (strm : Sink) (pc mc : ColorName) (pre : String)
    (preLen : Nat) (lines : List String) (h : lines ≠ []) :
    renderWrites strm pc mc pre preLen lines ≠ [] := by
  cases lines with
  | nil => exact absurd rfl h
  | cons l ls => simp [renderWrites]

/-- `String.mk` of the character data gives back the string. -/
theorem mk_data (s : String) : String.mk s.data = s := rfl

/-- String append is associative. -/
theorem str_append_assoc (a b c : String) : a ++ b ++ c = a ++ (b ++ c) := by
  cases a with
  | mk xa =>
    cases b with
    | mk xb =>
      cases c with
      | mk xc => simp [strMk_append, List.append_assoc]

/-- The message the popup block sees only depends on whether a file is open
and on the debug flag, both untouched by hanging-line resolution. -/
theorem msgAfterMirror_hangRes (qm : Bool) (pr : Printer) (st : ClassState)
    (o : EmitOpts) (m : String) :
    msgAfterMirror (hangRes qm pr st).1 o m = msgAfterMirror st o m := by
  unfold msgAfterMirror
  rw [hangRes_fst_fdOpen]

/-! Claim theorems. -/

/-- Claim C1: a call to `__call__` whose severity is neither warning nor
error, with the effective quiet flag (per-call override, else global quiet
mode) true or with debug severity while global debug mode is off, returns
with no console output, no file write, no notification and no state change;
warning- and error-severity calls are never suppressed (they always print
their message lines); and for non-debug calls the global debug mode has no
effect at all on the result. -/
theorem C1_quiet_debug_gating (qm dm dm2 : Bool) (td : String → String)
    (t : PyTime) (pr : Printer) (st : ClassState) (msgs : List String)
    (o : EmitOpts) :
    (o.warning = false → o.error = false →
      ((o.quietOv.getD qm) || (o.debug && !dm)) = true →
      emit qm dm td t pr st msgs o = noEffect pr st) ∧
    ((o.warning || o.error) = true → msgs ≠ [] →
      (emit qm dm td t pr st msgs o).console ≠ []) ∧
    (o.debug = false →
      emit qm dm td t pr st msgs o = emit qm dm2 td t pr st msgs o) := by
  refine ⟨?_, ?_, ?_⟩
  · intro hw he hq
    exact emit_gated qm dm td t pr st msgs o (by simp [gated, hw, he, hq])
  · intro hwe hm
    have hg : gated qm dm o = false := by simp [gated, hwe]
    obtain ⟨m0, rest, hrw⟩ := List.exists_cons_of_ne_nil hm
    subst hrw
    rw [emit_cons qm dm td t pr st m0 rest o hg, emitBody_console]
    intro hcontra
    rcases List.append_eq_nil.mp hcontra with ⟨-, h2⟩
    exact renderWrites_ne_nil _ _ _ _ _ _
      (splitLines_ne_nil (renderText td m0 rest)) h2
  · intro hd
    have hgg : gated qm dm o = gated qm dm2 o := by simp [gated, hd]
    simp only [emit, hgg]

/-- Witness for C1 at concrete inputs: a gated normal emit under global
quiet mode has no effect; an error emit prints even under global quiet mode;
and flipping global debug mode does not change a non-debug emit. -/
theorem C1_quiet_debug_gating_witness :
    emit true false (fun s => s) t0 pr0 st0 ["hi"] {} = noEffect pr0 st0 ∧
    (emit false false (fun s => s) t0 pr0 st0 ["hi"]
      { error := true }).console ≠ [] ∧
    emit true false (fun s => s) t0 pr0 st0 ["hi"] {} =
      emit true true (fun s => s) t0 pr0 st0 ["hi"] {} := by
  refine ⟨?_, ?_, ?_⟩
  · exact (C1_quiet_debug_gating true false false (fun s => s) t0 pr0 st0
      ["hi"] {}).1 rfl rfl (by decide)
  · exact (C1_quiet_debug_gating false false false (fun s => s) t0 pr0 st0
      ["hi"] { error := true }).2.1 (by decide) (by decide)
  · exact (C1_quiet_debug_gating true false true (fun s => s) t0 pr0 st0
      ["hi"] {}).2.2 rfl

/-- Counterexample to claim C4 as stated: a zero-argument call made while
global quiet mode is on (and with no severity flag) is gated and returns
with no exception at all — the `ValueError` check sits after the quick
exit, so the usage error is not raised "regardless of quiet mode". -/
theorem C4_counterexample :
    emit true false (fun s => s) t0 pr0 st0 [] {} = noEffect pr0 st0 ∧
    (noEffect pr0 st0).exn = none := by decide

/-- Claim C4 (amended): a call with zero message arguments raises
`ValueError` immediately — before any output or state change — whenever the
call passes the quiet/debug gate (in particular always for warning- or
error-severity calls); a gated zero-argument call instead returns silently
with no effects and no exception. -/
theorem C4_zero_args (qm dm : Bool) (td : String → String) (t : PyTime)
    (pr : Printer) (st : ClassState) (o : EmitOpts) :
    (gated qm dm o = false →
      emit qm dm td t pr st [] o =
        { noEffect pr st with
          exn := some (PyErr.valueError "message argument is required") }) ∧
    (gated qm dm o = true →
      emit qm dm td t pr st [] o = noEffect pr st) := by
  constructor
  · intro hg
    exact emit_nil qm dm td t pr st o hg
  · intro hg
    exact emit_gated qm dm td t pr st [] o hg

/-- Witness for C4: an error-severity zero-argument call raises the
`ValueError`, a quiet-gated one does not. -/
theorem C4_zero_args_witness :
    emit false false (fun s => s) t0 pr0 st0 [] { error := true } =
      { noEffect pr0 st0 with
        exn := some (PyErr.valueError "message argument is required") } ∧
    emit true false (fun s => s) t0 pr0 st0 [] {} = noEffect pr0 st0 := by
  constructor
  · exact (C4_zero_args false false (fun s => s) t0 pr0 st0
      { error := true }).1 (by decide)
  · exact (C4_zero_args true false (fun s => s) t0 pr0 st0 {}).2 (by decide)

/-- Claim C5 evaluated at the failing input (the claim is right, the code is
wrong): with a stored path, no open handle, and the operating system's
`open` failing, `openfile` does clear the stored path and handle, but then
its error report `print(..., file=sys.stderr)` evaluates the undefined name
`sys` — the module only does `from sys import stdout, stderr, platform` —
so the call raises `NameError` instead of reporting the failure on the
error stream and returning normally. -/
theorem C5_openfile_ioerror :
    openfile false false ⟨some "out.log", false, false, false⟩ =
      ⟨some (PyErr.nameError "sys"), ⟨none, false, false, false⟩⟩ ∧
    (openfile false false ⟨some "out.log", false, false, false⟩).exn ≠
      none := by decide

/-- Claim C8 evaluated at the failing input (the claim is right, the code is
wrong): the strip regex `(\x1b\[\d;\d\dm)|(\x1b\[0m)` removes every escape
sequence produced by the numbered color formatters, but not the prefix
`"\x1b["` + `""` + `"m"` produced by the `default` color function, so a
message carrying default-colored text keeps that escape when mirrored to the
log file — both on the `printf` path and on the prefixed-emit path. -/
theorem C8_default_escape_survives :
    stripColors (colorFn ColorName.default "x") = "\x1b[mx" ∧
    stripColors (colorFn ColorName.default "x") ≠ "x" ∧
    stripColors (colorFn ColorName.red "x") = "x" ∧
    (printf false pr0 stOpen (colorFn ColorName.default "x") none).2.2 =
      ["\x1b[mx"] ∧
    (emit false false (fun s => s) t0 pr0 stOpen
      [colorFn ColorName.default "x"] {}).fileOut = ["\x1b[mx\n"] := by
  decide

/-- Counterexample to claim C3 as stated: for
`emit("Error: {}", "disk full", error=true)` with a file open, the severity
override also forces the display prefix `"Error: "`, so the error stream
line visibly reads `"Error: Error: disk full"` (not `"Error: disk full"`),
and the file record is `"ERROR -> Error: disk full\n"` (not
`"ERROR -> disk full\n"`): the message template already carries the tag the
pipeline prepends again. -/
theorem C3_counterexample :
    (emit false false (fun s => s) t0 pr0 stOpen
      ["Error: \x7b\x7d", "disk full"] { error := true }).console =
      [⟨Sink.err, colorFn ColorName.red "Error: " ++
        colorFn ColorName.red "Error: disk full" ++ "\n"⟩] ∧
    stripColors (colorFn ColorName.red "Error: " ++
      colorFn ColorName.red "Error: disk full" ++ "\n") =
      "Error: Error: disk full\n" ∧
    "Error: Error: disk full\n" ≠ "Error: disk full\n" ∧
    String.join (emit false false (fun s => s) t0 pr0 stOpen
      ["Error: \x7b\x7d", "disk full"] { error := true }).fileOut =
      "ERROR -> Error: disk full\n" ∧
    "ERROR -> Error: disk full\n" ≠ "ERROR -> disk full\n" := by decide

/-- Claim C3 (amended): `emit("Error: {}", "disk full", error=true)` writes
to the error stream one line made of the red severity prefix `"Error: "`
followed by the red formatted message `"Error: disk full"`, and, with a log
file open (timestamps off), appends exactly the two writes `"ERROR -> "`
and `"Error: disk full\n"` — i.e. the record
`"ERROR -> Error: disk full\n"`. -/
theorem C3_error_scenario :
    emit false false (fun s => s) t0 pr0 stOpen
      ["Error: \x7b\x7d", "disk full"] { error := true } =
      ⟨none, pr0, stOpen,
        [⟨Sink.err, colorFn ColorName.red "Error: " ++
          colorFn ColorName.red "Error: disk full" ++ "\n"⟩],
        ["ERROR -> ", "Error: disk full\n"], [], false⟩ := by decide

/-- Counterexample to claim C7 as stated: at the fixed observation time the
mirrored record's leading tag is `"[ [2026-10-12+08:30+15.123456] ]  "` —
`timestamp()` already returns a bracketed string and the file write wraps it
in `'[ %s ]  '` again — not the single-bracket form
`"[ 2026-10-12+08:30+15.123456 ]  "` the claim states. -/
theorem C7_counterexample :
    (emit false false (fun s => s) t0 pr0 stTs ["hi"] {}).fileOut =
      ["[ [2026-10-12+08:30+15.123456] ]  ", "hi\n"] ∧
    "[ [2026-10-12+08:30+15.123456] ]  " ≠
      "[ 2026-10-12+08:30+15.123456 ]  " := by decide

/-- Claim C7 (amended): with timestamping enabled and a log file open, every
non-debug mirrored record begins with the tag
`"[ " ++ timestamp ++ " ]  "` (two trailing spaces) where `timestamp` is
itself the bracketed string `"[YYYY-MM-DD+HH:MM+SS.ffffff]"` with a
six-character sub-second part — so the written tag carries nested double
brackets, `"[ [YYYY-MM-DD+HH:MM+SS.ffffff] ]  "`. -/
theorem C7_timestamp_tag (qm dm : Bool) (td : String → String) (t : PyTime)
    (pr : Printer) (st : ClassState) (m0 : String) (rest : List String)
    (o : EmitOpts) (h1 : st.tsOn = true) (h2 : st.fdOpen = true)
    (h3 : st.hanging = false) (h4 : o.debug = false)
    (hg : gated qm dm o = false) :
    (emit qm dm td t pr st (m0 :: rest) o).fileOut.head? =
      some ("[ " ++ timestampStr t ++ " ]  ") ∧
    timestampStr t =
      "[" ++ (pad4 t.year ++ "-" ++ pad2 t.month ++ "-" ++ pad2 t.day ++
        "+" ++ pad2 t.hour ++ ":" ++ pad2 t.minute ++ "+" ++ pad2 t.sec ++
        "." ++ fracSix t.timeStr) ++ "]" ∧
    (fracSix t.timeStr).length = 6 := by
  refine ⟨?_, ?_, fracSix_length t.timeStr⟩
  · rw [emit_cons _ _ _ _ _ _ _ _ _ hg, emitBody_fileOut]
    have hh : hangRes qm pr st = (st, [], []) := by simp [hangRes, h3]
    rw [hh]
    simp [mirrorWrites, h1, h2, h4]
  · simp only [timestampStr, str_append_assoc]

/-- Witness for C7 at the fixed time and a concrete ungated emit. -/
theorem C7_timestamp_tag_witness :
    (emit false false (fun s => s) t0 pr0 stTs ["hi"] {}).fileOut.head? =
      some ("[ " ++ timestampStr t0 ++ " ]  ") ∧
    timestampStr t0 =
      "[" ++ (pad4 t0.year ++ "-" ++ pad2 t0.month ++ "-" ++ pad2 t0.day ++
        "+" ++ pad2 t0.hour ++ ":" ++ pad2 t0.minute ++ "+" ++ pad2 t0.sec ++
        "." ++ fracSix t0.timeStr) ++ "]" ∧
    (fracSix t0.timeStr).length = 6 :=
  C7_timestamp_tag false false (fun s => s) t0 pr0 stTs "hi" [] {} rfl rfl
    rfl rfl (by decide)

/-- Counterexample to claim C2 as stated: a raw `printf` of `"abc"` (quiet
mode off) leaves the hanging flag set, but the very next prefixed emit —
an error emit made after global quiet mode was switched on — produces
console output whose only write is the rendered error line itself: no
newline is injected (the injection runs through `printf`, which quiet mode
suppresses) and the emit leaves the hanging flag still true, so the claim's
"the very next prefixed emit begins by injecting exactly one newline" and
"a prefixed emit that produces output resets it" both fail. -/
theorem C2_counterexample :
    (printf false pr0 st0 "abc" none).1.hanging = true ∧
    (emit true false (fun s => s) t0 pr0 (printf false pr0 st0 "abc" none).1
      ["x"] { error := true }).console =
      [⟨Sink.err, colorFn ColorName.red "Error: " ++
        colorFn ColorName.red "x" ++ "\n"⟩] ∧
    (emit true false (fun s => s) t0 pr0 (printf false pr0 st0 "abc" none).1
      ["x"] { error := true }).cstate.hanging = true := by decide

/-- Claim C2 (amended): while global quiet mode is off, a raw `printf`
write leaves the shared hanging flag true exactly when the written string
does not end in a newline; and an ungated prefixed emit made from a
hanging state produces exactly one extra leading console write — a colored
newline — relative to the same emit from a non-hanging state, and either
way leaves the hanging flag false.  (Under global quiet mode `printf` is a
no-op and the flag is frozen, which is what the counterexample exhibits.) -/
theorem C2_hanging_invariant (dm : Bool) (td : String → String) (t : PyTime)
    (pr : Printer) (st : ClassState) (s : String) (c : Option ColorName)
    (m0 : String) (rest : List String) (o : EmitOpts)
    (hg : gated false dm o = false) :
    (printf false pr st s c).1.hanging = !(endsWithNl s) ∧
    (emit false dm td t pr { st with hanging := true }
      (m0 :: rest) o).console =
      ⟨Sink.out, colorFn pr.prefColor "\n"⟩ ::
        (emit false dm td t pr { st with hanging := false }
          (m0 :: rest) o).console ∧
    (emit false dm td t pr { st with hanging := true }
      (m0 :: rest) o).cstate.hanging = false ∧
    (emit false dm td t pr { st with hanging := false }
      (m0 :: rest) o).cstate.hanging = false := by
  have h1 : hangRes false pr { st with hanging := true } =
      ({ st with hanging := false },
        [⟨Sink.out, colorFn pr.prefColor "\n"⟩],
        if st.fdOpen then [stripColors "\n"] else []) := by
    simp [hangRes, newline, printf, endsWithNl_nl]
  have h2 : hangRes false pr { st with hanging := false } =
      ({ st with hanging := false }, [], []) := by
    simp [hangRes]
  refine ⟨by simp [printf], ?_, ?_, ?_⟩
  · rw [emit_cons _ _ _ _ _ _ _ _ _ hg, emit_cons _ _ _ _ _ _ _ _ _ hg,
      emitBody_console, emitBody_console, h1, h2]
    simp
  · rw [emit_cons _ _ _ _ _ _ _ _ _ hg, emitBody_cstate, h1]
  · rw [emit_cons _ _ _ _ _ _ _ _ _ hg, emitBody_cstate, h2]

/-- Witness for C2 at concrete inputs: the raw write `"abc"` sets the flag;
an ungated normal emit of `"x"` from hanging and non-hanging states differs
by exactly the injected colored newline, and both reset the flag. -/
theorem C2_hanging_invariant_witness :
    (printf false pr0 st0 "abc" none).1.hanging = !(endsWithNl "abc") ∧
    (emit false false (fun s => s) t0 pr0 { st0 with hanging := true }
      ["x"] {}).console =
      ⟨Sink.out, colorFn pr0.prefColor "\n"⟩ ::
        (emit false false (fun s => s) t0 pr0 { st0 with hanging := false }
          ["x"] {}).console ∧
    (emit false false (fun s => s) t0 pr0 { st0 with hanging := true }
      ["x"] {}).cstate.hanging = false ∧
    (emit false false (fun s => s) t0 pr0 { st0 with hanging := false }
      ["x"] {}).cstate.hanging = false :=
  C2_hanging_invariant false (fun s => s) t0 pr0 st0 "abc" none "x" [] {}
    (by decide)

/-- Claim C6: for every ungated emit (from a non-hanging state, so the
rendered block is the whole console output), the writes after the first are
exactly the message's continuation lines, each preceded by
`preString (resolvePrefixText pr o)` many space characters — the display
width of the rendered prefix (prefix text plus `": "`, zero when the prefix
is empty) — regardless of `hideprefix`, which blanks the prefix but keeps
its width. -/
theorem C6_continuation_indent (qm dm : Bool) (td : String → String)
    (t : PyTime) (pr : Printer) (st : ClassState) (m0 : String)
    (rest : List String) (o : EmitOpts) (hh : st.hanging = false)
    (hg : gated qm dm o = false) :
    (emit qm dm td t pr st (m0 :: rest) o).console.tail =
      (splitLines (renderText td m0 rest)).tail.map
        (fun l => ⟨(renderCfg pr o).strm,
          spaces (preString (resolvePrefixText pr o)).length ++
            colorFn (renderCfg pr o).msgColor l ++ "\n"⟩) := by
  rw [emit_cons _ _ _ _ _ _ _ _ _ hg, emitBody_console]
  have hh2 : hangRes qm pr st = (st, [], []) := by simp [hangRes, hh]
  rw [hh2]
  simpa using renderWrites_tail (renderCfg pr o).strm (renderCfg pr o).prefColor
    (renderCfg pr o).msgColor _ _ (splitLines (renderText td m0 rest))

/-- Witness for C6: a three-line message under a `"Run"` prefix with
`hideprefix` set still indents continuation lines by the 5-character width
of `"Run: "`. -/
theorem C6_continuation_indent_witness :
    (emit false false (fun s => s) t0 prRun st0 ["ab\ncd\nef"]
      { hidePfx := true }).console.tail =
      (splitLines (renderText (fun s => s) "ab\ncd\nef" [])).tail.map
        (fun l => ⟨(renderCfg prRun { hidePfx := true }).strm,
          spaces (preString (resolvePrefixText prRun
            { hidePfx := true })).length ++
            colorFn (renderCfg prRun { hidePfx := true }).msgColor l ++
            "\n"⟩) :=
  C6_continuation_indent false false (fun s => s) t0 prRun st0 "ab\ncd\nef"
    [] { hidePfx := true } rfl (by decide)

/-- Counterexample to claim C9 as stated: an error-severity popup emit of
the message `"disk full"` — which does not begin with the severity tag
`"Error: "` — forwards the body `"ll"` to the notification bridge:
`msg[7:]` drops a fixed character count, not the leading tag text, so the
forwarded body is neither the message nor the message with a leading tag
removed. -/
theorem C9_counterexample :
    (emit false false (fun s => s) t0 pr0 st0 ["disk full"]
      { popup := true, error := true }).notes =
      [⟨"ll", "Console", some "Error"⟩] ∧
    startsWithStr "disk full" "Error: " = false ∧
    ("ll" : String) ≠ "disk full" := by decide

/-- Claim C9 (amended): an error- (resp. warning-) severity popup emit
forwards the rendered message — color-stripped first when a non-debug
message is being mirrored to an open file — with its first 7 (resp. 9)
characters dropped, which equals removal of the leading tag exactly when
the message begins with `"Error: "` (resp. `"Warning: "`); non-severity
popups forward the (possibly color-stripped) message unchanged; and the
bridge is constructed at most once per printer instance: a popup call on a
printer without a bridge constructs it, and no call on a printer whose
bridge exists ever constructs another. -/
theorem C9_popup_forwarding (qm dm : Bool) (td : String → String)
    (t : PyTime) (pr : Printer) (st : ClassState) (m0 : String)
    (rest : List String) (o : EmitOpts) (hg : gated qm dm o = false)
    (hp : o.popup = true) :
    (o.error = true →
      (emit qm dm td t pr st (m0 :: rest) o).notes =
        [⟨pyDrop (msgAfterMirror st o (renderText td m0 rest)) 7,
          "Console", some "Error"⟩]) ∧
    (o.error = false → o.warning = true →
      (emit qm dm td t pr st (m0 :: rest) o).notes =
        [⟨pyDrop (msgAfterMirror st o (renderText td m0 rest)) 9,
          "Console", some "Warning"⟩]) ∧
    (o.error = false → o.warning = false →
      (emit qm dm td t pr st (m0 :: rest) o).notes =
        [⟨msgAfterMirror st o (renderText td m0 rest), "Console", none⟩]) ∧
    (emit qm dm td t pr st (m0 :: rest) o).constructed =
      !pr.notifierMade ∧
    (emit qm dm td t pr st (m0 :: rest) o).printer.notifierMade = true ∧
    (∀ (qm2 dm2 : Bool) (td2 : String → String) (t2 : PyTime)
      (st2 : ClassState) (msgs2 : List String) (o2 : EmitOpts),
      (emit qm2 dm2 td2 t2 (emit qm dm td t pr st (m0 :: rest) o).printer
        st2 msgs2 o2).constructed = false) ∧
    (∀ m : String, startsWithStr m "Error: " = true →
      "Error: " ++ pyDrop m 7 = m) := by
  have hnotes : (emit qm dm td t pr st (m0 :: rest) o).notes =
      popupNotes o (msgAfterMirror st o (renderText td m0 rest)) := by
    rw [emit_cons _ _ _ _ _ _ _ _ _ hg, emitBody_notes, msgAfterMirror_hangRes]
  have hmade : (emit qm dm td t pr st (m0 :: rest) o).printer.notifierMade =
      true := by
    rw [emit_cons _ _ _ _ _ _ _ _ _ hg, emitBody_printer, hp]
    cases hm : pr.notifierMade <;> simp [hm]
  refine ⟨?_, ?_, ?_, ?_, hmade, ?_, ?_⟩
  · intro he
    rw [hnotes]
    simp [popupNotes, hp, he]
  · intro he hw
    rw [hnotes]
    simp [popupNotes, hp, he, hw]
  · intro he hw
    rw [hnotes]
    simp [popupNotes, hp, he, hw]
  · rw [emit_cons _ _ _ _ _ _ _ _ _ hg, emitBody_constructed, hp]
    simp
  · intro qm2 dm2 td2 t2 st2 msgs2 o2
    exact (emit_made_mono qm2 dm2 td2 t2 _ st2 msgs2 o2 hmade).1
  · intro m hm
    have hlen : ("Error: " : String).data.length = 7 := rfl
    have htake : m.data.take (("Error: " : String).data.length) =
        ("Error: " : String).data := by
      unfold startsWithStr at hm
      exact eq_of_beq hm
    rw [hlen] at htake
    calc "Error: " ++ pyDrop m 7
        = String.mk (("Error: " : String).data ++ m.data.drop 7) := rfl
      _ = String.mk (m.data.take 7 ++ m.data.drop 7) := by rw [htake]
      _ = String.mk m.data := by rw [List.take_append_drop]
      _ = m := mk_data m

/-- Witness for C9: a concrete error popup of a tagged message with no file
open forwards exactly the tag-stripped body, constructs the bridge once,
and a repeat call constructs nothing. -/
theorem C9_popup_forwarding_witness :
    ((emit false false (fun s => s) t0 pr0 st0 ["Error: disk full"]
      { popup := true, error := true }).notes =
      [⟨pyDrop (msgAfterMirror st0 { popup := true, error := true }
        (renderText (fun s => s) "Error: disk full" [])) 7,
        "Console", some "Error"⟩]) ∧
    (emit false false (fun s => s) t0 pr0 st0 ["Error: disk full"]
      { popup := true, error := true }).constructed = !pr0.notifierMade ∧
    (emit false false (fun s => s) t0 pr0 st0 ["Error: disk full"]
      { popup := true, error := true }).printer.notifierMade = true ∧
    "Error: " ++ pyDrop ("Error: disk full" : String) 7 =
      "Error: disk full" := by
  have h := C9_popup_forwarding false false (fun s => s) t0 pr0 st0
    "Error: disk full" [] { popup := true, error := true } (by decide) rfl
  exact ⟨h.1 rfl, h.2.2.2.1, h.2.2.2.2.1,
    h.2.2.2.2.2.2 "Error: disk full" (by decide)⟩

/-- Claim C10: `printf` called while global quiet mode is on returns
immediately: no console write, no file write, and the class state — in
particular the shared hanging flag — is returned unchanged, so a hanging
line left from before quiet mode was enabled stays unresolved. -/
theorem C10_printf_quiet (pr : Printer) (st : ClassState) (s : String)
    (c : Option ColorName) :
    printf true pr st s c = (st, [], []) := rfl

end Pouty
